import Mathlib

/-!
Shallow embedding of the session-relay / topic-routing core of
remote_multi_tmux:

* `server2/websocket_server.py` — `Program2Interface` (the topic registry)
  and `WebSocketRouter.handle_client_message` (the client-facing router).
* `server1/tmux_manager.py` — `TmuxSessionManager` (the execution backend
  adapter): `send_output_to_server2`, `handle_command`,
  `_fallback_monitor_session_output`, `connect_websocket` /
  `listen_for_messages`.

Python dicts are modelled as association lists preserving insertion order
(`dictGet` / `dictSet` / `dictErase` mirror `d.get(k)`, `d[k] = v`,
`del d[k]`).  Python truthiness of optional strings (`if session_id:`) is
`truthy`.  Network and filesystem effects are threaded explicitly: calls the
code would make upstream appear in output lists, and the success of external
operations (session creation over HTTP, websocket sends, `os.makedirs`,
`tmux kill-window`) is a boolean/option parameter supplied by the
environment.
-/

namespace RemoteMultiTmux

/-- `d.get(k)` on a Python dict rendered as an insertion-ordered assoc list. -/
def dictGet {α : Type} (d : List (String × α)) (k : String) : Option α :=
  (d.find? (fun p => p.1 == k)).map (fun p => p.2)

/-- `d[k] = v`: replace in place when the key exists, else append. -/
def dictSet {α : Type} (d : List (String × α)) (k : String) (v : α) :
    List (String × α) :=
  if (d.find? (fun p => p.1 == k)).isSome then
    d.map (fun p => if p.1 == k then (k, v) else p)
  else
    d ++ [(k, v)]

/-- `del d[k]` (a no-op when the key is absent, as used after an `in` check). -/
def dictErase {α : Type} (d : List (String × α)) (k : String) :
    List (String × α) :=
  d.filter (fun p => p.1 != k)

/-- Python truthiness of an optional string: `None` and `""` are falsy. -/
def truthy (o : Option String) : Bool :=
  match o with
  | some s => s ≠ ""
  | none => false

/-! ## Program2Interface: the topic registry (server2/websocket_server.py) -/

/-- The mutable state of `Program2Interface`: `self.topics`
(topic name → session id) and `self.topic_owners` (topic name → owning
client connection, modelled by a numeric connection id). -/
structure Registry where
  topics : List (String × String)
  topicOwners : List (String × Nat)
deriving Repr, DecidableEq

/-- A call the registry asks the router to forward to server-1. -/
inductive BackendCall where
  | command (sessionId : String) (data : String)
  | sessionDestroy (sessionId : String)
deriving Repr, DecidableEq

/-- Result of a registry operation: new state, the returned boolean, the
backend calls sent upstream, and the topic-log lines appended
(topic name, message). -/
structure OpResult where
  st : Registry
  ok : Bool
  backend : List BackendCall
  logs : List (String × String)
deriving Repr, DecidableEq

/-- `Program2Interface.create_topic(topic_name, user_id, client_websocket)`.
`mkdirOk` is whether `os.makedirs` succeeds (an exception is caught and
yields `False`); `sessionResult` is what
`websocket_router.request_session_creation(user_id)` returned (that
coroutine catches its own exceptions and returns `None` on any failure).
On a truthy session id the code stores `topics[topic_name] = session_id`,
stores the owner when a client websocket was passed, and logs
`"session opened - <session_id>"`; it performs no check that `topic_name`
is already bound. -/
def create_topic (mkdirOk : Bool) (sessionResult : Option String)
    (st : Registry) (topicName : String) (clientWebsocket : Option Nat) :
    OpResult :=
  if mkdirOk = false then
    { st := st, ok := false, backend := [], logs := [] }
  else
    match sessionResult with
    | some sessionId =>
        if sessionId ≠ "" then
          { st :=
              { topics := dictSet st.topics topicName sessionId,
                topicOwners :=
                  match clientWebsocket with
                  | some c => dictSet st.topicOwners topicName c
                  | none => st.topicOwners },
            ok := true,
            backend := [],
            logs := [(topicName, "session opened - " ++ sessionId)] }
        else
          { st := st, ok := false, backend := [], logs := [] }
    | none => { st := st, ok := false, backend := [], logs := [] }

/-- `Program2Interface.stop_topic(topic_name)`.  A falsy `topics.get`
result returns `False`.  Otherwise the code requests session destruction
(`request_session_destruction` sends only when the server-1 connection is
up and swallows its own send errors, so it never raises), logs the literal
stop marker, and deletes the topic from both maps. -/
def stop_topic (server1Connected : Bool) (st : Registry)
    (topicName : String) : OpResult :=
  match dictGet st.topics topicName with
  | none => { st := st, ok := false, backend := [], logs := [] }
  | some sessionId =>
      if sessionId = "" then
        { st := st, ok := false, backend := [], logs := [] }
      else
        { st :=
            { topics := dictErase st.topics topicName,
              topicOwners := dictErase st.topicOwners topicName },
          ok := true,
          backend :=
            if server1Connected then [BackendCall.sessionDestroy sessionId]
            else [],
          logs := [(topicName, "стоп")] }

/-- `Program2Interface.send_command_to_topic(topic_name, command)`.  A falsy
`topics.get` result returns `False` with no effect; otherwise the command is
forwarded (`send_command_to_session` sends only when server-1 is connected
and swallows send errors) and `"COMMAND: <command>"` is logged. -/
def send_command_to_topic (server1Connected : Bool) (st : Registry)
    (topicName : String) (command : String) : OpResult :=
  match dictGet st.topics topicName with
  | none => { st := st, ok := false, backend := [], logs := [] }
  | some sessionId =>
      if sessionId = "" then
        { st := st, ok := false, backend := [], logs := [] }
      else
        { st := st,
          ok := true,
          backend :=
            if server1Connected then [BackendCall.command sessionId command]
            else [],
          logs := [(topicName, "COMMAND: " ++ command)] }

/-- The push envelope sent to a topic owner. -/
structure OutputMsg where
  topicName : String
  data : String
deriving Repr, DecidableEq

/-- `Program2Interface.send_output_to_owner(topic_name, output)`.
`sendOk c` is whether `await owner_client.send(...)` succeeds for
connection `c`; on failure the exception is caught and the owner entry is
deleted, leaving `topics` untouched. -/
def send_output_to_owner (sendOk : Nat → Bool) (st : Registry)
    (topicName : String) (output : String) :
    Registry × List (Nat × OutputMsg) :=
  match dictGet st.topicOwners topicName with
  | none => (st, [])
  | some ownerClient =>
      if sendOk ownerClient then
        (st, [(ownerClient, { topicName := topicName, data := output })])
      else
        ({ st with topicOwners := dictErase st.topicOwners topicName }, [])

/-- The linear scan `for topic, sid in self.topics.items(): if sid ==
session_id: ... break` — first binding whose session id matches. -/
def findTopicForSession (topics : List (String × String))
    (sessionId : String) : Option String :=
  (topics.find? (fun p => p.2 == sessionId)).map (fun p => p.1)

/-- `Program2Interface.handle_session_output(session_id, output)`: resolve
the topic bound to the session, then run the body under the Python-truthy
guard `if topic_name:` — so both "no binding found" (`topic_name` still
`None`) and a binding whose topic name is the empty string skip the body.
When the guard passes, log `"OUTPUT: <output>"` and deliver to the owner
only.  Returns the new registry, the log lines written, and the
(connection, message) deliveries made. -/
def handle_session_output (sendOk : Nat → Bool) (st : Registry)
    (sessionId : String) (output : String) :
    Registry × List (String × String) × List (Nat × OutputMsg) :=
  match findTopicForSession st.topics sessionId with
  | none => (st, [], [])
  | some topicName =>
      if topicName = "" then (st, [], [])
      else
        let r := send_output_to_owner sendOk st topicName output
        (r.1, [(topicName, "OUTPUT: " ++ output)], r.2)

/-! ## WebSocketRouter.handle_client_message (server2/websocket_server.py) -/

/-- The fields the router reads from an inbound client JSON message with
`data.get(...)` (absent keys give `None`, modelled `none`). -/
structure ClientMsg where
  type : Option String
  topicName : Option String
  userId : Option String
  command : Option String
deriving Repr, DecidableEq

/-- A response envelope sent back on the requesting connection. -/
structure Response where
  type : String
  topicName : String
  command : Option String
  success : Bool
deriving Repr, DecidableEq

/-- `WebSocketRouter.handle_client_message(websocket, message)` after JSON
decoding, with `self.program2` set (it is installed at startup before any
connection is served).  Each branch only acts — and only answers — when its
required fields are truthy; otherwise the message falls through with no
response.  Returns the new registry state, the responses sent back on this
connection, and the backend calls forwarded to server-1. -/
def handle_client_message (mkdirOk : Bool) (sessionResult : Option String)
    (server1Connected : Bool) (st : Registry) (conn : Nat)
    (msg : ClientMsg) : Registry × List Response × List BackendCall :=
  if msg.type == some "create_topic" then
    if truthy msg.topicName && truthy msg.userId then
      let tn := msg.topicName.getD ""
      let r := create_topic mkdirOk sessionResult st tn (some conn)
      (r.st,
       [{ type := if r.ok then "topic_created" else "topic_create_failed",
          topicName := tn, command := none, success := r.ok }],
       r.backend)
    else (st, [], [])
  else if msg.type == some "stop_topic" then
    if truthy msg.topicName then
      let tn := msg.topicName.getD ""
      let r := stop_topic server1Connected st tn
      (r.st,
       [{ type := "topic_stopped", topicName := tn, command := none,
          success := r.ok }],
       r.backend)
    else (st, [], [])
  else if msg.type == some "send_command" then
    if truthy msg.topicName && truthy msg.command then
      let tn := msg.topicName.getD ""
      let cmd := msg.command.getD ""
      let r := send_command_to_topic server1Connected st tn cmd
      (r.st,
       [{ type := "command_sent", topicName := tn, command := some cmd,
          success := r.ok }],
       r.backend)
    else (st, [], [])
  else (st, [], [])

/-! ## TmuxSessionManager: the execution backend adapter
(server1/tmux_manager.py) -/

/-- The adapter state touched by output emission: whether `self.websocket`
is set (reconnects replace it, never reset the counter) and the
per-adapter `self.sequence` counter, initialised to 0 in `__init__`. -/
structure AdapterState where
  websocketConnected : Bool
  sequence : Nat
deriving Repr, DecidableEq

/-- The adapter state at construction: no websocket, `sequence = 0`. -/
def initialAdapterState : AdapterState :=
  { websocketConnected := false, sequence := 0 }

/-- The stdout envelope sent to server-2 (timestamp omitted; it carries no
routing information). -/
structure StdoutMsg where
  sessionId : String
  data : String
  sequence : Nat
deriving Repr, DecidableEq

/-- `TmuxSessionManager.send_output_to_server2(session_id, output)`: return
silently when `self.websocket` is unset; otherwise build the message with
the current `self.sequence`, increment the counter, then attempt the send
(`sendOk`); a send failure is caught and logged, the chunk is not emitted,
the counter stays incremented. -/
def send_output_to_server2 (st : AdapterState) (sessionId : String)
    (output : String) (sendOk : Bool) : AdapterState × List StdoutMsg :=
  if st.websocketConnected = false then (st, [])
  else
    let msg : StdoutMsg :=
      { sessionId := sessionId, data := output, sequence := st.sequence }
    let st' : AdapterState := { st with sequence := st.sequence + 1 }
    if sendOk then (st', [msg]) else (st', [])

/-- One call to `send_output_to_server2` during a run: the value of
`self.websocket` at that moment (reconnects may have replaced or cleared
it), the arguments, and whether the websocket send succeeds. -/
structure OutEvent where
  wsConnected : Bool
  sessionId : String
  output : String
  sendOk : Bool

/-- A run of the adapter: the calls to `send_output_to_server2` in program
order (the counter read and increment are adjacent with no await between
them, so calls do not interleave).  Returns the final state and the chunks
actually emitted, in emission order. -/
def runOutputs : AdapterState → List OutEvent → AdapterState × List StdoutMsg
  | st, [] => (st, [])
  | st, e :: rest =>
      let r := send_output_to_server2
        { st with websocketConnected := e.wsConnected }
        e.sessionId e.output e.sendOk
      let rr := runOutputs r.1 rest
      (rr.1, r.2 ++ rr.2)

/-- The state of `TmuxSessionManager` read by `handle_command`:
`self.sessions` (session id → tmux window name) and
`self.command_timestamps`. -/
structure ManagerState where
  sessions : List (String × String)
  commandTimestamps : List (String × Nat)
deriving Repr, DecidableEq

/-- A tmux subprocess invocation issued by the adapter. -/
inductive TmuxCall where
  | sendKeys (target : String) (command : String)
  | pipePaneKill (target : String)
  | killWindow (target : String)
  | rmtree (path : String)
deriving Repr, DecidableEq

/-- The default `session_name` of the manager. -/
def session_name : String := "worker_sessions"

/-- `TmuxSessionManager.send_command_to_session(session_id, command)`: a
falsy `sessions.get` result returns with no effect; otherwise the command
timestamp is recorded and `tmux send-keys` is issued
(`send_command_to_window` catches its own subprocess errors). -/
def send_command_to_session (now : Nat) (st : ManagerState)
    (sessionId : String) (command : String) :
    ManagerState × List TmuxCall :=
  match dictGet st.sessions sessionId with
  | none => (st, [])
  | some windowName =>
      if windowName = "" then (st, [])
      else
        ({ st with
             commandTimestamps := dictSet st.commandTimestamps sessionId now },
         [TmuxCall.sendKeys (session_name ++ ":" ++ windowName) command])

/-- `TmuxSessionManager.destroy_session(session_id)`: a falsy
`sessions.get` result returns `False`; otherwise pipe-pane is killed
(errors ignored), then `tmux kill-window` runs — on its failure (`killOk =
false`) the exception is caught, `False` is returned and the maps are left
intact; on success the session is removed from both maps and its directory
removed. -/
def destroy_session (killOk : Bool) (st : ManagerState)
    (sessionId : String) : ManagerState × Bool × List TmuxCall :=
  match dictGet st.sessions sessionId with
  | none => (st, false, [])
  | some windowName =>
      if windowName = "" then (st, false, [])
      else
        let target := session_name ++ ":" ++ windowName
        if killOk then
          ({ sessions := dictErase st.sessions sessionId,
             commandTimestamps := dictErase st.commandTimestamps sessionId },
           true,
           [TmuxCall.pipePaneKill target, TmuxCall.killWindow target,
            TmuxCall.rmtree ("/tmp/sessions/" ++ sessionId)])
        else
          (st, false, [TmuxCall.pipePaneKill target, TmuxCall.killWindow target])

/-- The fields `handle_command` reads from a decoded server-2 envelope with
`data.get(...)`. -/
structure CommandMsg where
  type : Option String
  sessionId : Option String
  data : Option String
deriving Repr, DecidableEq

/-- `TmuxSessionManager.handle_command(data)`: dispatch on `type` with
Python-truthy field guards; any envelope failing both guards is dropped
with no action, no state change, and no reply (the function has no reply
path at all). -/
def handle_command (now : Nat) (killOk : Bool) (st : ManagerState)
    (msg : CommandMsg) : ManagerState × List TmuxCall :=
  if msg.type == some "command" && truthy msg.sessionId && truthy msg.data
  then
    send_command_to_session now st (msg.sessionId.getD "") (msg.data.getD "")
  else if msg.type == some "session_destroy" && truthy msg.sessionId then
    let r := destroy_session killOk st (msg.sessionId.getD "")
    (r.1, r.2.2)
  else (st, [])

/-! ## Fallback output capture (`_fallback_monitor_session_output`) -/

/-- Python's `str.isspace` whitespace set, as used by `strip`/`rstrip`. -/
def pyIsSpace (c : Char) : Bool :=
  c == ' ' || c == '\t' || c == '\n' || c == '\r' || c == '\x0b' || c == '\x0c'

/-- Python `s.rstrip()`. -/
def pyRstrip (s : String) : String :=
  ((s.toList.reverse.dropWhile pyIsSpace).reverse).asString

/-- Python `s.strip()`. -/
def pyStrip (s : String) : String :=
  (((s.toList.dropWhile pyIsSpace).reverse.dropWhile pyIsSpace).reverse).asString

/-- One iteration of the `_fallback_monitor_session_output` loop body,
given the pane content `capture-pane -p` printed and whether the minimum
inter-send interval has elapsed.  The loop keeps `last_output`; when the
rstripped capture differs from it, is non-blank, and the interval allows,
it sends the rstripped capture — the whole pane snapshot — and stores it.
Returns the new `last_output` and the chunk emitted, if any. -/
def fallback_step (lastOutput : String) (paneContent : String)
    (intervalOk : Bool) : String × Option String :=
  let currentOutput := pyRstrip paneContent
  if currentOutput != lastOutput && pyStrip currentOutput != "" && intervalOk
  then
    (currentOutput, some currentOutput)
  else
    (lastOutput, none)

/-- Modelled from the spec: the chunk §4.1's snapshot-diff algorithm
prescribes — drop the longest common line-prefix of the previous and
current snapshots and emit only the remaining lines of the current one. -/
def dropCommonLead : List String → List String → List String
  | _, [] => []
  | [], cur => cur
  | o :: old, c :: cur =>
      if o == c then dropCommonLead old cur else c :: cur

/-- Split a string at newline characters (the pieces of
`s.split("\n")`). -/
def splitLinesAux : List Char → List Char → List String
  | [], acc => [acc.reverse.asString]
  | c :: cs, acc =>
      if c == '\n' then acc.reverse.asString :: splitLinesAux cs []
      else splitLinesAux cs (c :: acc)

/-- The lines of a snapshot, in order. -/
def splitLines (s : String) : List String :=
  splitLinesAux s.toList []

/-- Join lines back with newlines. -/
def joinLines : List String → String
  | [] => ""
  | [l] => l
  | l :: ls => l ++ "\n" ++ joinLines ls

/-- Modelled from the spec: the suffix of new/changed lines starting at the
first line where the current snapshot diverges from the previous one. -/
def specSuffixDiff (lastOutput : String) (currentOutput : String) : String :=
  joinLines (dropCommonLead (splitLines lastOutput) (splitLines currentOutput))

/-! ## Backend-connection retry (`connect_websocket` /
`listen_for_messages`) -/

/-- `max_retries` in `connect_websocket`. -/
def max_retries : Nat := 5

/-- `retry_delay` (seconds) between attempts in `connect_websocket`. -/
def retry_delay : Nat := 2

/-- The fixed sleep (seconds) `listen_for_messages` takes before
reconnecting after `ConnectionClosed`. -/
def reconnect_sleep : Nat := 2

/-- `TmuxSessionManager.connect_websocket()`: attempts 0 .. `max_retries`-1
in order, `retry_delay` apart; `attemptSucceeds i` is whether
`websockets.connect` succeeds on attempt `i`.  Returns the index of the
first successful attempt, or `none` for the exception re-raised after the
last failure (the caller sees a fatal error). -/
def connect_websocket (attemptSucceeds : Nat → Bool) : Option Nat :=
  (List.range max_retries).find? attemptSucceeds

/-- `TmuxSessionManager.listen_for_messages()` on `ConnectionClosed` — the
path taken when a previously-successful connection drops: sleep
`reconnect_sleep` seconds, then call the very same `connect_websocket`,
with its bounded retry count and terminal raise. -/
def reconnect_after_close (attemptSucceeds : Nat → Bool) : Option Nat :=
  connect_websocket attemptSucceeds

/-! ## Dictionary lemmas -/

theorem find_map_overwrite {α : Type} (d : List (String × α)) (k : String)
    (v : α) (h : (d.find? (fun p => p.1 == k)).isSome) :
    (d.map (fun p => if p.1 == k then (k, v) else p)).find?
      (fun p => p.1 == k) = some (k, v) := by
  induction d with
  | nil => simp at h
  | cons p d ih =>
      cases hp : (p.1 == k) with
      | true => simp [List.find?, hp]
      | false =>
          simp only [List.find?, hp] at h
          simp only [List.map_cons, hp, Bool.false_eq_true, if_false,
            List.find?, cond_false]
          exact ih h

theorem find_append_single {α : Type} (d : List (String × α)) (k : String)
    (v : α) (h : d.find? (fun p => p.1 == k) = none) :
    (d ++ [(k, v)]).find? (fun p => p.1 == k) = some (k, v) := by
  induction d with
  | nil => simp [List.find?]
  | cons p d ih =>
      cases hp : (p.1 == k) with
      | true => simp [List.find?, hp] at h
      | false =>
          simp only [List.find?, hp] at h
          simp only [List.cons_append, List.find?, hp, cond_false]
          exact ih h

theorem dictGet_dictSet_self {α : Type} (d : List (String × α)) (k : String)
    (v : α) : dictGet (dictSet d k v) k = some v := by
  unfold dictGet dictSet
  by_cases h : (d.find? (fun p => p.1 == k)).isSome
  · rw [if_pos h, find_map_overwrite d k v h]
    rfl
  · rw [if_neg h]
    rw [Option.not_isSome_iff_eq_none] at h
    rw [find_append_single d k v h]
    rfl

theorem dictGet_dictErase_self {α : Type} (d : List (String × α))
    (k : String) : dictGet (dictErase d k) k = none := by
  unfold dictGet dictErase
  have hnone : (List.filter (fun p => p.1 != k) d).find?
      (fun p => p.1 == k) = none := by
    rw [List.find?_eq_none]
    intro p hp
    have h2 := (List.mem_filter.mp hp).2
    simp only [bne_iff_ne, ne_eq] at h2
    simp [h2]
  rw [hnone]
  rfl

/-! ## Sequence-counter lemmas -/

theorem runOutputs_emitted_seq_ge (evs : List OutEvent) :
    ∀ st : AdapterState, ∀ m ∈ (runOutputs st evs).2, st.sequence ≤ m.sequence := by
  induction evs with
  | nil => intro st m hm; simp [runOutputs] at hm
  | cons e rest ih =>
      intro st m hm
      cases hw : e.wsConnected with
      | false =>
          simp [runOutputs, send_output_to_server2, hw] at hm
          exact ih { websocketConnected := false, sequence := st.sequence } m hm
      | true =>
          cases hs : e.sendOk with
          | true =>
              simp [runOutputs, send_output_to_server2, hw, hs] at hm
              rcases hm with rfl | hm
              · exact Nat.le_refl _
              · exact Nat.le_of_succ_le (ih _ m hm)
          | false =>
              simp [runOutputs, send_output_to_server2, hw, hs] at hm
              exact Nat.le_of_succ_le (ih _ m hm)

theorem runOutputs_pairwise_lt (evs : List OutEvent) :
    ∀ st : AdapterState,
      List.Pairwise (fun a b : StdoutMsg => a.sequence < b.sequence)
        (runOutputs st evs).2 := by
  induction evs with
  | nil => intro st; simp [runOutputs]
  | cons e rest ih =>
      intro st
      cases hw : e.wsConnected with
      | false =>
          simp only [runOutputs, send_output_to_server2, hw]
          simpa using ih _
      | true =>
          cases hs : e.sendOk with
          | true =>
              simp only [runOutputs, send_output_to_server2, hw, hs]
              simp only [Bool.true_eq_false, if_false, if_true,
                List.singleton_append, List.pairwise_cons]
              exact ⟨fun m hm => runOutputs_emitted_seq_ge rest _ m hm, ih _⟩
          | false =>
              simp only [runOutputs, send_output_to_server2, hw, hs]
              simpa using ih _

/-! ## Claims -/

/-- C1, counterexample: with topic `"t"` active (bound to session `"s1"`,
owned by connection 1), `create_topic` at a succeeding backend (new session
`"s2"`, requesting connection 2) returns `true` and silently rebinds both
the session and the owner — it does not fail and does not leave the
existing binding unchanged. -/
theorem c1_create_topic_active_counterexample :
    (create_topic true (some "s2")
        { topics := [("t", "s1")], topicOwners := [("t", 1)] }
        "t" (some 2)).ok = true ∧
    dictGet (create_topic true (some "s2")
        { topics := [("t", "s1")], topicOwners := [("t", 1)] }
        "t" (some 2)).st.topics "t" = some "s2" ∧
    dictGet (create_topic true (some "s2")
        { topics := [("t", "s1")], topicOwners := [("t", 1)] }
        "t" (some 2)).st.topicOwners "t" = some 2 ∧
    some "s2" ≠ some "s1" := by
  decide

/-- C1, amended: `create_topic` performs no already-active check.  Whenever
the backend returns a (truthy) session id it rebinds the topic name to the
new session and to the requesting connection and returns `true`, replacing
any existing binding; it returns `false` with the registry unchanged only
when the directory creation or the backend session request fails. -/
theorem c1_create_topic_overwrites (st : Registry) (t sid : String)
    (c : Nat) (hsid : sid ≠ "") :
    (create_topic true (some sid) st t (some c)).ok = true ∧
    dictGet (create_topic true (some sid) st t (some c)).st.topics t
      = some sid ∧
    dictGet (create_topic true (some sid) st t (some c)).st.topicOwners t
      = some c ∧
    (∀ mkdirOk cw, create_topic mkdirOk none st t cw
      = { st := st, ok := false, backend := [], logs := [] }) := by
  refine ⟨?_, ?_, ?_, ?_⟩
  · simp [create_topic, hsid]
  · simp [create_topic, hsid, dictGet_dictSet_self]
  · simp [create_topic, hsid, dictGet_dictSet_self]
  · intro mkdirOk cw
    cases mkdirOk <;> simp [create_topic]

/-- C1, witness for the amended theorem at a concrete input. -/
theorem c1_create_topic_overwrites_witness :
    (create_topic true (some "s9")
        { topics := [("t", "s1")], topicOwners := [("t", 1)] }
        "t" (some 7)).ok = true ∧
    dictGet (create_topic true (some "s9")
        { topics := [("t", "s1")], topicOwners := [("t", 1)] }
        "t" (some 7)).st.topics "t" = some "s9" ∧
    dictGet (create_topic true (some "s9")
        { topics := [("t", "s1")], topicOwners := [("t", 1)] }
        "t" (some 7)).st.topicOwners "t" = some 7 ∧
    (∀ mkdirOk cw, create_topic mkdirOk none
        { topics := [("t", "s1")], topicOwners := [("t", 1)] } "t" cw
      = { st := { topics := [("t", "s1")], topicOwners := [("t", 1)] },
          ok := false, backend := [], logs := [] }) :=
  c1_create_topic_overwrites
    { topics := [("t", "s1")], topicOwners := [("t", 1)] }
    "t" "s9" 7 (by decide)

/-- C2, counterexample: a `create_topic` request with no `topicName` field
gets no response at all — the router answers it with silence, even though
it is a client request of one of the three types. -/
theorem c2_missing_field_silence_counterexample :
    (handle_client_message true (some "s") true
        { topics := [], topicOwners := [] } 0
        { type := some "create_topic", topicName := none,
          userId := some "u1", command := none }).2.1 = [] := by
  decide

/-- C2, amended: a client request of type `create_topic`, `stop_topic` or
`send_command` whose required fields are all present and non-empty receives
exactly one response envelope on the same connection (each carries a
`success` boolean by construction); a request with a missing or empty
required field is dropped without any response. -/
theorem c2_one_response_when_fields_present (mkdirOk : Bool)
    (sessionResult : Option String) (server1Connected : Bool)
    (st : Registry) (conn : Nat) (msg : ClientMsg)
    (h : (msg.type = some "create_topic" ∧ truthy msg.topicName = true ∧
            truthy msg.userId = true) ∨
         (msg.type = some "stop_topic" ∧ truthy msg.topicName = true) ∨
         (msg.type = some "send_command" ∧ truthy msg.topicName = true ∧
            truthy msg.command = true)) :
    (handle_client_message mkdirOk sessionResult server1Connected
        st conn msg).2.1.length = 1 := by
  rcases h with ⟨ht, h1, h2⟩ | ⟨ht, h1⟩ | ⟨ht, h1, h2⟩
  · simp [handle_client_message, ht, h1, h2]
  · simp [handle_client_message, ht, h1]
  · simp [handle_client_message, ht, h1, h2]

/-- C2, witness for the amended theorem at a concrete input. -/
theorem c2_one_response_when_fields_present_witness :
    (handle_client_message true (some "s") true
        { topics := [("t", "s1")], topicOwners := [] } 0
        { type := some "stop_topic", topicName := some "t", userId := none,
          command := none }).2.1.length = 1 :=
  c2_one_response_when_fields_present true (some "s") true
    { topics := [("t", "s1")], topicOwners := [] } 0
    { type := some "stop_topic", topicName := some "t", userId := none,
      command := none }
    (Or.inr (Or.inl ⟨rfl, by decide⟩))

/-- C3, counterexample: with previous snapshot `"a"` and current pane
content `"a\nb"`, the fallback step emits the whole pane content `"a\nb"`,
whereas the claimed suffix-after-longest-common-line-prefix is `"b"`. -/
theorem c3_fallback_full_snapshot_counterexample :
    fallback_step "a" "a\nb" true = ("a\nb", some "a\nb") ∧
    specSuffixDiff "a" "a\nb" = "b" ∧
    ("a\nb" : String) ≠ "b" := by
  decide

/-- C3, amended: the fallback path computes no line diff at all — whenever
the rstripped capture differs from the previously sent snapshot, is
non-blank, and the minimum send interval has elapsed, it emits the full
rstripped pane snapshot and stores it as the new comparison point. -/
theorem c3_fallback_emits_full_snapshot (lastOutput paneContent : String)
    (hne : pyRstrip paneContent ≠ lastOutput)
    (hnb : pyStrip (pyRstrip paneContent) ≠ "") :
    fallback_step lastOutput paneContent true
      = (pyRstrip paneContent, some (pyRstrip paneContent)) := by
  simp [fallback_step, hne, hnb]

/-- C3, witness for the amended theorem at a concrete input. -/
theorem c3_fallback_emits_full_snapshot_witness :
    fallback_step "a" "a\nc " true = ("a\nc", some "a\nc") :=
  c3_fallback_emits_full_snapshot "a" "a\nc " (by decide) (by decide)

/-- C4, counterexample: after a previously-successful connection is lost,
the reconnect path (`listen_for_messages` on `ConnectionClosed`) calls the
same bounded `connect_websocket`; when the next `max_retries` = 5 attempts
all fail, it gives up and re-raises — reporting fatal failure rather than
retrying without bound. -/
theorem c4_bounded_reconnect_counterexample :
    reconnect_after_close (fun _ => false) = none := by
  decide

/-- C4, amended: on `connected → disconnected` the adapter re-enters
connecting after a fixed delay, but with the same bounded retry count as
initial startup: reconnection after a previously-successful connection is
the very same `connect_websocket`, and it reports fatal failure exactly
when all `max_retries` attempts fail — unbounded retry is not
implemented. -/
theorem c4_reconnect_same_bounded_retry (attemptSucceeds : Nat → Bool) :
    reconnect_after_close attemptSucceeds
      = connect_websocket attemptSucceeds ∧
    (reconnect_after_close attemptSucceeds = none ↔
      ∀ i < max_retries, attemptSucceeds i = false) := by
  refine ⟨rfl, ?_⟩
  simp [reconnect_after_close, connect_websocket, List.find?_eq_none,
    List.mem_range, Bool.not_eq_true]

/-- C5: sending a command to a topic name absent from the registry returns
`false`, issues no backend call, appends no log line, and leaves the
registry unchanged. -/
theorem c5_send_command_unknown_topic (server1Connected : Bool)
    (st : Registry) (t command : String)
    (h : dictGet st.topics t = none) :
    send_command_to_topic server1Connected st t command
      = { st := st, ok := false, backend := [], logs := [] } := by
  simp [send_command_to_topic, h]

/-- C5, witness at a concrete input. -/
theorem c5_send_command_unknown_topic_witness :
    send_command_to_topic true
        { topics := [("other", "s1")], topicOwners := [] } "t" "echo hi"
      = { st := { topics := [("other", "s1")], topicOwners := [] },
          ok := false, backend := [], logs := [] } :=
  c5_send_command_unknown_topic true
    { topics := [("other", "s1")], topicOwners := [] } "t" "echo hi"
    (by decide)

/-- C6: for a topic name `t` not currently active, a successful
`create_topic` (the backend returned a session id) followed immediately by
`stop_topic t` succeeds and leaves the registry with no entry for `t` in
either the topic-to-session map or the topic-owner map. -/
theorem c6_create_then_stop_no_entry (server1Connected : Bool)
    (st : Registry) (t sid : String) (c : Nat)
    (_hfresh : dictGet st.topics t = none) (hsid : sid ≠ "") :
    (create_topic true (some sid) st t (some c)).ok = true ∧
    (stop_topic server1Connected
        (create_topic true (some sid) st t (some c)).st t).ok = true ∧
    dictGet (stop_topic server1Connected
        (create_topic true (some sid) st t (some c)).st t).st.topics t
      = none ∧
    dictGet (stop_topic server1Connected
        (create_topic true (some sid) st t (some c)).st t).st.topicOwners t
      = none := by
  have hcreate : create_topic true (some sid) st t (some c)
      = { st := { topics := dictSet st.topics t sid,
                  topicOwners := dictSet st.topicOwners t c },
          ok := true, backend := [],
          logs := [(t, "session opened - " ++ sid)] } := by
    simp [create_topic, hsid]
  rw [hcreate]
  have hget : dictGet (dictSet st.topics t sid) t = some sid :=
    dictGet_dictSet_self _ _ _
  refine ⟨rfl, ?_, ?_, ?_⟩ <;>
    simp [stop_topic, hget, hsid, dictGet_dictErase_self]

/-- C6, witness at a concrete input. -/
theorem c6_create_then_stop_no_entry_witness :
    (create_topic true (some "s1")
        { topics := [], topicOwners := [] } "demo" (some 1)).ok = true ∧
    (stop_topic true (create_topic true (some "s1")
        { topics := [], topicOwners := [] } "demo" (some 1)).st
        "demo").ok = true ∧
    dictGet (stop_topic true (create_topic true (some "s1")
        { topics := [], topicOwners := [] } "demo" (some 1)).st
        "demo").st.topics "demo" = none ∧
    dictGet (stop_topic true (create_topic true (some "s1")
        { topics := [], topicOwners := [] } "demo" (some 1)).st
        "demo").st.topicOwners "demo" = none :=
  c6_create_then_stop_no_entry true { topics := [], topicOwners := [] }
    "demo" "s1" 1 (by decide) (by decide)

/-- C7: `handle_session_output` for a session id bound to no topic is a
no-op — no log line is written, nothing is delivered to any client
connection, and the registry is unchanged. -/
theorem c7_output_unknown_session_noop (sendOk : Nat → Bool)
    (st : Registry) (sid output : String)
    (h : ∀ p ∈ st.topics, p.2 ≠ sid) :
    handle_session_output sendOk st sid output = (st, [], []) := by
  have hfind : findTopicForSession st.topics sid = none := by
    have hnone : st.topics.find? (fun p => p.2 == sid) = none :=
      List.find?_eq_none.mpr (fun p hp => by simpa using h p hp)
    simp [findTopicForSession, hnone]
  simp [handle_session_output, hfind]

/-- C7, witness at a concrete input. -/
theorem c7_output_unknown_session_noop_witness :
    handle_session_output (fun _ => true)
        { topics := [("t", "s1")], topicOwners := [("t", 1)] } "zzz" "hi"
      = ({ topics := [("t", "s1")], topicOwners := [("t", 1)] }, [], []) :=
  c7_output_unknown_session_noop (fun _ => true)
    { topics := [("t", "s1")], topicOwners := [("t", 1)] } "zzz" "hi"
    (by decide)

/-- C8: over any run of a single adapter (the counter starts at 0 in
`__init__` and is only ever incremented), the sequence numbers of the
chunks actually emitted, in emission order, are pairwise strictly
increasing — hence strictly monotone and never reused. -/
theorem c8_sequence_strictly_increasing (evs : List OutEvent) :
    List.Pairwise (fun a b : StdoutMsg => a.sequence < b.sequence)
      (runOutputs initialAdapterState evs).2 :=
  runOutputs_pairwise_lt evs initialAdapterState

/-- C9: when the owner connection send fails for an active topic (a
truthy, i.e. non-empty, topic name — an empty name never reaches the send,
as the `if topic_name:` guard skips the body), the owner binding is
removed while the topic-to-session map is untouched (the topic stays
active, now ownerless), the output log line is still written, nothing is
delivered, and `handle_session_output` completes normally. -/
theorem c9_delivery_failure_deowns (sendOk : Nat → Bool) (st : Registry)
    (sid output t : String) (c : Nat)
    (htne : t ≠ "")
    (ht : findTopicForSession st.topics sid = some t)
    (hc : dictGet st.topicOwners t = some c)
    (hfail : sendOk c = false) :
    (handle_session_output sendOk st sid output).1.topics = st.topics ∧
    dictGet (handle_session_output sendOk st sid output).1.topicOwners t
      = none ∧
    (handle_session_output sendOk st sid output).2.1
      = [(t, "OUTPUT: " ++ output)] ∧
    (handle_session_output sendOk st sid output).2.2 = [] := by
  simp [handle_session_output, ht, htne, send_output_to_owner, hc, hfail,
    dictGet_dictErase_self]

/-- C9, witness at a concrete input. -/
theorem c9_delivery_failure_deowns_witness :
    (handle_session_output (fun _ => false)
        { topics := [("t", "s1")], topicOwners := [("t", 1)] }
        "s1" "hi").1.topics = [("t", "s1")] ∧
    dictGet (handle_session_output (fun _ => false)
        { topics := [("t", "s1")], topicOwners := [("t", 1)] }
        "s1" "hi").1.topicOwners "t" = none ∧
    (handle_session_output (fun _ => false)
        { topics := [("t", "s1")], topicOwners := [("t", 1)] }
        "s1" "hi").2.1 = [("t", "OUTPUT: " ++ "hi")] ∧
    (handle_session_output (fun _ => false)
        { topics := [("t", "s1")], topicOwners := [("t", 1)] }
        "s1" "hi").2.2 = [] :=
  c9_delivery_failure_deowns (fun _ => false)
    { topics := [("t", "s1")], topicOwners := [("t", 1)] }
    "s1" "hi" "t" 1 (by decide) (by decide) (by decide) rfl

/-- C10: a backend-facing envelope of type `command` whose `sessionId` or
`data` is missing or empty, or of type `session_destroy` whose `sessionId`
is missing or empty, is silently dropped by `handle_command`: no tmux call
is issued, the manager state is unchanged, and no reply of any kind is
produced. -/
theorem c10_invalid_backend_envelope_dropped (now : Nat) (killOk : Bool)
    (st : ManagerState) (msg : CommandMsg)
    (h : (msg.type = some "command" ∧
            (truthy msg.sessionId = false ∨ truthy msg.data = false)) ∨
         (msg.type = some "session_destroy" ∧
            truthy msg.sessionId = false)) :
    handle_command now killOk st msg = (st, []) := by
  rcases h with ⟨ht, h1 | h1⟩ | ⟨ht, h1⟩
  · simp [handle_command, ht, h1]
  · simp [handle_command, ht, h1]
  · simp [handle_command, ht, h1]

/-- C10, witness at a concrete input. -/
theorem c10_invalid_backend_envelope_dropped_witness :
    handle_command 7 true
        { sessions := [("s1", "w1")], commandTimestamps := [] }
        { type := some "command", sessionId := some "s1", data := none }
      = ({ sessions := [("s1", "w1")], commandTimestamps := [] }, []) :=
  c10_invalid_backend_envelope_dropped 7 true
    { sessions := [("s1", "w1")], commandTimestamps := [] }
    { type := some "command", sessionId := some "s1", data := none }
    (Or.inl ⟨rfl, Or.inr rfl⟩)

end RemoteMultiTmux
